import Mathlib

/-
Verification development for the `uniswap_service.py` swap service.

The Python source is shallowly embedded: addresses are modelled as their
hex-decoded byte lists, byte strings as `List Nat` (each entry < 256),
Python `int` as `Nat`/`Int`, and Python `float` amounts/balances as `ℚ`
(all comparisons exercised below are at values where binary floating point
and exact arithmetic agree).  Stateful methods are modelled as explicit
state-passing functions; chain RPC responses are an explicit environment
record; the observable RPC calls a method makes are returned as an effect
trace.  Error strings are modelled by their constant prefixes, f-string
interpolations of runtime values are omitted.
-/

namespace MonadCards

abbrev Byte := Nat

abbrev Addr := List Byte

/-- The 20-byte zero address, used by the service as the native-token leg. -/
def zeroAddress : Addr := List.replicate 20 0

/-- Python `v.to_bytes(n, 'big')` for `v < 256 ^ n`: big-endian, fixed width. -/
def toBytesBE : Nat → Nat → List Byte
  | 0, _ => []
  | n + 1, v => toBytesBE n (v / 256) ++ [v % 256]

/-- Big-endian byte-list decoding, `int.from_bytes(l, 'big')`. -/
def fromBytesBE (l : List Byte) : Nat :=
  l.foldl (fun acc b => acc * 256 + b) 0

/-- Result of `build_universal_router_execute_data`: `(commands, inputs, deadline)`. -/
structure ExecuteData where
  commands : List Byte
  inputs : List (List Byte)
  deadline : Nat
deriving DecidableEq

/-- `uniswap_service.py` lines 382-459, `build_universal_router_execute_data`.
Addresses arrive hex-decoded (`w3.to_bytes(hexstr=addr[2:])`).  `none` models
the `OverflowError` of `amount_in.to_bytes(32, 'big')` when the amount does
not fit 32 bytes; the surrounding `except` re-raises it.  `input1` is the
same expression in the buy and the sell branch of the source.  The deadline
is `get_block('latest').timestamp + 1200`. -/
def build_universal_router_execute_data (tokenAddress : Addr) (amountIn : Nat)
    (tradeType : String) (walletAddress : Addr) (blockTimestamp : Nat) :
    Option ExecuteData :=
  if amountIn < 2 ^ 256 then
    let deadline := blockTimestamp + 1200
    let input1 :=
      tokenAddress ++ toBytesBE 32 amountIn ++ toBytesBE 32 0 ++ walletAddress
    if tradeType = "buy" then
      let input2 := [2] ++ List.replicate 20 0 ++ tokenAddress
      some ⟨[0x0b], [input1, input2], deadline⟩
    else
      let input2 := [2] ++ tokenAddress ++ List.replicate 20 0
      some ⟨[0x0b], [input1, input2], deadline⟩
  else
    none

/-- Decoder at the spec's fixed offsets: token address is bytes 0-19. -/
def decodeInput1Token (input1 : List Byte) : List Byte :=
  input1.take 20

/-- Decoder at the spec's fixed offsets: amount is bytes 20-51, big-endian. -/
def decodeInput1Amount (input1 : List Byte) : Nat :=
  fromBytesBE ((input1.drop 20).take 32)

/-- Recipient decoder at the offset the spec claims (bytes from 52). -/
def decodeInput1RecipientClaimed (input1 : List Byte) : List Byte :=
  (input1.drop 52).take 20

/-- Recipient decoder at the offset the code actually uses (bytes 84-103,
after the 32 zero bytes of `amountOutMinimum`). -/
def decodeInput1Recipient (input1 : List Byte) : List Byte :=
  (input1.drop 84).take 20

theorem length_toBytesBE (n v : Nat) : (toBytesBE n v).length = n := by
  induction n generalizing v with
  | zero => rfl
  | succ k ih => simp [toBytesBE, ih]

theorem fromBytesBE_append_singleton (l : List Byte) (b : Byte) :
    fromBytesBE (l ++ [b]) = fromBytesBE l * 256 + b := by
  simp [fromBytesBE, List.foldl_append]

theorem fromBytesBE_toBytesBE (n v : Nat) (h : v < 256 ^ n) :
    fromBytesBE (toBytesBE n v) = v := by
  induction n generalizing v with
  | zero =>
    have hv : v = 0 := by simpa using h
    simp [hv, toBytesBE, fromBytesBE]
  | succ k ih =>
    have hdiv : v / 256 < 256 ^ k := by
      have h256 : (0 : Nat) < 256 := by norm_num
      rw [Nat.div_lt_iff_lt_mul h256]
      calc v < 256 ^ (k + 1) := h
        _ = 256 ^ k * 256 := by ring
    rw [toBytesBE, fromBytesBE_append_singleton, ih _ hdiv]
    omega

theorem take_length_append {α : Type} (l₁ l₂ : List α) :
    (l₁ ++ l₂).take l₁.length = l₁ := by
  induction l₁ with
  | nil => simp
  | cons x xs ih => simp [ih]

theorem drop_length_append {α : Type} (l₁ l₂ : List α) :
    (l₁ ++ l₂).drop l₁.length = l₂ := by
  induction l₁ with
  | nil => simp
  | cons x xs ih => simp [ih]

theorem take_append_of_length {α : Type} {l₁ : List α} {n : Nat}
    (h : l₁.length = n) (l₂ : List α) : (l₁ ++ l₂).take n = l₁ := by
  subst h; exact take_length_append l₁ l₂

theorem drop_append_of_length {α : Type} {l₁ : List α} {n : Nat}
    (h : l₁.length = n) (l₂ : List α) : (l₁ ++ l₂).drop n = l₂ := by
  subst h; exact drop_length_append l₁ l₂

/-- First-match association-list lookup, the behaviour of a Python `dict`
read given that the service only ever inserts fresh keys. -/
def lookupA {α : Type} : List (String × α) → String → Option α
  | [], _ => none
  | (k2, v) :: rest, k => if k2 = k then some v else lookupA rest k

/-- Overwrite the value stored at a key, the behaviour of `d[k] = v` for a
present key. -/
def setA {α : Type} : List (String × α) → String → α → List (String × α)
  | [], _, _ => []
  | (k2, v2) :: rest, k, v =>
    if k2 = k then (k, v) :: setA rest k v else (k2, v2) :: setA rest k v

theorem lookupA_setA {α : Type} (l : List (String × α)) (k : String) (v : α)
    (h : (lookupA l k).isSome) : lookupA (setA l k v) k = some v := by
  induction l with
  | nil => simp [lookupA] at h
  | cons p rest ih =>
    obtain ⟨k1, v1⟩ := p
    by_cases hk : k1 = k
    · show lookupA (if k1 = k then _ else _) k = some v
      rw [if_pos hk]
      simp [lookupA]
    · show lookupA (if k1 = k then _ else _) k = some v
      rw [if_neg hk]
      have h2 : (lookupA rest k).isSome := by
        simpa [lookupA, hk] using h
      simpa [lookupA, hk] using ih h2

theorem lookupA_setA_ne {α : Type} (l : List (String × α)) (k k2 : String)
    (v : α) (h : k2 ≠ k) : lookupA (setA l k v) k2 = lookupA l k2 := by
  induction l with
  | nil => simp [setA, lookupA]
  | cons p rest ih =>
    obtain ⟨k1, v1⟩ := p
    by_cases hk : k1 = k
    · show lookupA (if k1 = k then _ else _) k2 = _
      rw [if_pos hk]
      have hkk2 : ¬ k = k2 := fun hh => h (hh.symm)
      have hk1k2 : ¬ k1 = k2 := hk ▸ hkk2
      simp [lookupA, hkk2, hk1k2, ih]
    · show lookupA (if k1 = k then _ else _) k2 = _
      rw [if_neg hk]
      by_cases hk2 : k1 = k2 <;> simp [lookupA, hk2, ih]

/-- `uniswap_service.py` lines 341-380, `discover_universal_router`, as a
pure function of the router cache.  `checksum` abstracts
`w3.to_checksum_address`.  The returned `Nat` counts the chain probes
(`get_code` / RPC reads) the call performs: the method performs none — its
"method 1" only constructs a local contract object, methods 2 and 3 are
comments — so the count is 0 on every path.  On a cache miss the configured
default router is checksummed, cached and returned; nothing ever removes a
cache entry. -/
def discover_universal_router (checksum : String → String)
    (routerCache : List (String × String)) (defaultRouter : String)
    (tokenAddress : String) : String × List (String × String) × Nat :=
  match lookupA routerCache tokenAddress with
  | some cached => (cached, routerCache, 0)
  | none =>
    let checksumRouter := checksum defaultRouter
    (checksumRouter, (tokenAddress, checksumRouter) :: routerCache, 0)

/-- One entry of `pool_monitors` (`start_pool_monitor`, lines 1154-1188). -/
structure MonitorInfo where
  tokenAddress : String
  walletAddress : String
  threshold : ℚ
  autoTrade : Bool
  active : Bool
  startTime : Nat
  lastBalance : ℚ
deriving DecidableEq

/-- `uniswap_service.py` lines 1120-1142, `_check_pool_status`, as a pure
function of one monitor entry and the balance read the tick performs.
`balanceResult` is `get_token_balance`'s readable balance, `none` when that
read fails (the tick then does nothing).  Returns the updated entry and
whether a change event fired; the event fires only on
`abs(current - last) > threshold` (strictly), and only then is
`last_balance` overwritten. -/
def check_pool_status (monitorInfo : MonitorInfo) (balanceResult : Option ℚ) :
    MonitorInfo × Bool :=
  match balanceResult with
  | none => (monitorInfo, false)
  | some currentBalance =>
    if |currentBalance - monitorInfo.lastBalance| > monitorInfo.threshold then
      ({ monitorInfo with lastBalance := currentBalance }, true)
    else
      (monitorInfo, false)

/-- Structured result of the monitor-management endpoints. -/
inductive StopResult
  | ok (monitorId : String)
  | err (msg : String)
deriving DecidableEq

/-- `uniswap_service.py` lines 1190-1217, `stop_pool_monitor`.  A known id
is flagged inactive and deleted (net effect: removed from the map); an
unknown id yields the structured failure `{"success": False,
"error": "监控ID不存在"}` — the surrounding `try` means no exception
escapes, which the total function models by construction. -/
def stop_pool_monitor (poolMonitors : List (String × MonitorInfo))
    (monitorId : String) : StopResult × List (String × MonitorInfo) :=
  match lookupA poolMonitors monitorId with
  | some _ => (.ok monitorId, poolMonitors.filter (fun p => p.1 != monitorId))
  | none => (.err "监控ID不存在", poolMonitors)

/-- One entry of `scheduled_tasks` (`schedule_swap`, lines 656-676). -/
structure TaskInfo where
  threadCount : Int
  runCount : Int
  totalTrades : Int
  estimatedGas : Nat
  active : Bool
  completed : Bool
  completionTime : Option Nat
deriving DecidableEq

/-- The scheduler's mutable state: the task map and the id counter. -/
structure SchedulerState where
  scheduledTasks : List (String × TaskInfo)
  taskCounter : Nat
deriving DecidableEq

/-- Structured result of the scheduler endpoints. -/
inductive SchedResult
  | ok (taskId : String)
  | err (msg : String)
deriving DecidableEq

def SchedResult.isErr : SchedResult → Bool
  | .err _ => true
  | .ok _ => false

/-- `uniswap_service.py` lines 1249-1295, `execute_scheduled_task`.  `now`
is `time.time()` at execution.  An unknown id or an already-executed task
(`active = false`) is a structured failure that leaves the map untouched;
an active task is flagged `active := false`, `completed := true` with a
completion time, and the success result is returned. -/
def execute_scheduled_task (scheduledTasks : List (String × TaskInfo))
    (taskId : String) (now : Nat) :
    SchedResult × List (String × TaskInfo) :=
  match lookupA scheduledTasks taskId with
  | none => (.err "任务ID不存在", scheduledTasks)
  | some taskInfo =>
    if taskInfo.active then
      let executed := { taskInfo with
        active := false, completed := true, completionTime := some now }
      (.ok taskId, setA scheduledTasks taskId executed)
    else
      (.err "任务已停止", scheduledTasks)

/-- A mined transaction receipt as `wait_for_transaction_receipt` returns it. -/
structure Receipt where
  status : Nat
  blockNumber : Nat
  gasUsed : Nat
  effectiveGasPrice : Nat
deriving DecidableEq

/-- The chain RPC responses one `execute_swap` / `schedule_swap` run observes.
`monBalance` is `get_balance` in wei; `tokenBalance` is
`get_token_balance`'s readable balance (`none`: that read failed);
`wethAddress` is what `get_weth_address` returns (the configured zero
address when the `WETH9()` read fails); `estimateGas = none` models
`estimate_gas` raising; `broadcastOk = false` models
`send_raw_transaction` raising; `receipt = none` models the confirmation
wait timing out. -/
structure ChainEnv where
  monBalance : Nat
  tokenBalance : Option ℚ
  wethAddress : Addr
  blockTimestamp : Nat
  tokenDecimals : Nat
  estimateGas : Option Nat
  broadcastOk : Bool
  receipt : Option Receipt
  txHash : Nat
deriving DecidableEq

/-- The observable chain interactions of one run, in order.  `sign` carries
the gas limit of the transaction being signed.  `allowanceRead`,
`approveSend` and `approveWait` name the allowance read and the blocking
approval sub-transaction the sell branch of the source contains (lines
919-940); they are emitted by no run below because the loaded ERC20 ABI
has no `allowance` entry, so that branch raises before reaching them. -/
inductive Effect
  | balanceRead
  | tokenBalanceRead
  | wethRead
  | routerVerify
  | blockRead
  | decimalsRead
  | allowanceRead
  | calldataBuilt
  | approveSend
  | approveWait
  | estimateGasCall
  | sign (gasLimit : Nat)
  | sendRaw
  | receiptWait
  | diagCall
deriving DecidableEq

/-- The write (state-changing) chain calls: the approval broadcast and the
swap broadcast. -/
def Effect.isWrite : Effect → Bool
  | .approveSend => true
  | .sendRaw => true
  | _ => false

/-- Outcome of `execute_swap`: the success payload mirrors the fields of the
returned `data` object (`tx_hash`, `block_number`, `gas_used`,
`effective_gas_price`). -/
inductive SwapResult
  | ok (txHash blockNumber gasUsed effectiveGasPrice : Nat)
  | err (msg : String)
deriving DecidableEq

/-- `w3.to_wei(amount, 'ether')`, exact for the decimal amounts at issue. -/
def toWei (amount : ℚ) : ℚ := amount * 10 ^ 18

/-- `uniswap_service.py` lines 988-1098: gas estimation, signing, broadcast
and confirmation, shared tail of `execute_swap`.  A failed estimate is
replaced by the fixed fallback limit 500000 and the run continues; the
transaction is then signed with that gas limit and broadcast.  Status 1
receipts yield the success payload; status 0 triggers the diagnostic
read-only `eth_call` replay and fails; a missing receipt fails as a
confirmation timeout. -/
def executeSwapFinish (env : ChainEnv) (effs : List Effect) :
    SwapResult × List Effect :=
  let gas := match env.estimateGas with
    | some g => g
    | none => 500000
  let effs := effs ++ [Effect.estimateGasCall, Effect.sign gas]
  if env.broadcastOk then
    let effs := effs ++ [Effect.sendRaw, Effect.receiptWait]
    match env.receipt with
    | none => (.err "交易确认失败", effs)
    | some receipt =>
      if receipt.status = 1 then
        (.ok env.txHash receipt.blockNumber receipt.gasUsed
          receipt.effectiveGasPrice, effs)
      else
        (.err "交易确认失败: 交易执行失败", effs ++ [Effect.diagCall])
  else
    (.err "交易发送失败", effs ++ [Effect.sendRaw])

/-- `uniswap_service.py` lines 775-986: the calldata-building stage of
`execute_swap`, entered only after the balance check passed.  With the
configured zero WETH address both directions abort before any calldata is
built (the buy branch's native-placeholder attempt references the local
`router_contract` before assignment, so its inner `try` always fails and
raises the wrap-to-WMON error).  Otherwise the router is verified (reads
only), the deadline block is read, and the amount is processed — a buy
converts with `to_wei`, every other trade type reads the token's decimals
(line 877) — before the direction split.  A buy then builds the
`exactInputSingle` calldata and continues.  A sell next accesses
`token_contract.functions.allowance` (line 919), but the ERC20 ABI loaded
at lines 255-306 has no `allowance` entry, so web3 raises
`ABIFunctionNotFound` before any allowance read or approval; the build
`except` wraps it as a build failure, so every non-zero-WETH sell fails
there.  A trade type that is neither buy nor sell fails as an unsupported
token-to-token trade. -/
def executeSwapBuild (env : ChainEnv) (tradeType : String) (amountIn : ℚ)
    (effs : List Effect) : SwapResult × List Effect :=
  if env.wethAddress = zeroAddress then
    if tradeType = "buy" then
      (.err "暂不支持Monad原生代币直接交易，请先将MON包装为WMON", effs)
    else
      (.err "暂不支持直接卖出到原生MON，请使用WMON", effs)
  else
    let effs := effs ++ [Effect.routerVerify, Effect.blockRead]
    if tradeType = "buy" then
      executeSwapFinish env (effs ++ [Effect.calldataBuilt])
    else
      let effs := effs ++ [Effect.decimalsRead]
      if tradeType = "sell" then
        (.err "交易构建失败: The function allowance was not found in this contract abi",
          effs)
      else
        (.err "交易构建失败: 暂不支持Token到Token的直接交易", effs)

/-- `uniswap_service.py` lines 736-1098, `execute_swap`.  The balance
pre-check comes first: a buy reads the native balance and requires
`mon_balance >= to_wei(amount_in)`, anything else reads the token balance
and requires `readable_balance >= amount_in`; a shortfall (or a failed
balance read) is a terminal error before any further chain interaction.
Only then is the WETH address read and the build/estimate/sign/broadcast
tail entered.  The address and slippage arguments do not influence the
control flow, mirroring the source (slippage only feeds an unused
multiplier). -/
def execute_swap (env : ChainEnv) (tokenAddress walletAddress : Addr)
    (amountIn : ℚ) (tradeType : String) (slippage : ℚ) :
    SwapResult × List Effect :=
  if tradeType = "buy" then
    if (env.monBalance : ℚ) < toWei amountIn then
      (.err "MON 余额不足", [Effect.balanceRead])
    else
      executeSwapBuild env tradeType amountIn
        [Effect.balanceRead, Effect.wethRead]
  else
    match env.tokenBalance with
    | none => (.err "获取代币余额失败", [Effect.tokenBalanceRead])
    | some tokenBalance =>
      if tokenBalance < amountIn then
        (.err "代币余额不足", [Effect.tokenBalanceRead])
      else
        executeSwapBuild env tradeType amountIn
          [Effect.tokenBalanceRead, Effect.wethRead]

/-- `uniswap_service.py` lines 612-683: the tail of `schedule_swap` after
validation and the balance pre-check.  Router discovery and the byte-level
calldata build (`build_universal_router_execute_data`) succeed, but line
631 then accesses `router_contract.functions.execute`, and the router ABI
loaded at lines 149-253 has no `execute` entry, so web3 raises
`ABIFunctionNotFound` before any transaction is built, estimated or
signed; the method's outer handler turns this into a failure result.
Hence this tail is a constant failure: no submission ever stores a task
or arms a timer, and the scheduler state is unchanged on every path. -/
def scheduleSwapArm (st : SchedulerState) : SchedResult × SchedulerState × Bool :=
  (.err "The function execute was not found in this contract abi", st, false)

/-- `uniswap_service.py` lines 549-710, `schedule_swap`, as a function of
the scheduler state; the third component records whether a one-shot timer
was armed.  In source order: the schedule time must be strictly in the
future (else the `ValidationError` wrapped as a time-format error),
`thread_count` must lie in [1,10] and `run_count` in [1,100]; then the
eager balance pre-check — a buy checks the native balance against the
single `to_wei(amount_in)` only, a sell checks the readable token balance
against `amount_in * thread_count * run_count`; a submission that passes
the pre-check then always fails in the tail (`scheduleSwapArm`): the
execute-call build raises against the loaded router ABI, so no task is
ever stored and no timer armed. -/
def schedule_swap (env : ChainEnv) (tokenAddress : String) (amountIn : ℚ)
    (tradeType : String) (slippage : ℚ) (scheduleTime now : Int)
    (threadCount runCount : Int) (st : SchedulerState) :
    SchedResult × SchedulerState × Bool :=
  if scheduleTime ≤ now then
    (.err "无效的定时时间格式: 定时时间必须晚于当前时间", st, false)
  else if threadCount < 1 ∨ threadCount > 10 then
    (.err "线程数量必须在1-10之间", st, false)
  else if runCount < 1 ∨ runCount > 100 then
    (.err "运行次数必须在1-100之间", st, false)
  else
    let totalTrades := threadCount * runCount
    if tradeType = "buy" then
      if (env.monBalance : ℚ) < toWei amountIn then
        (.err "MON 余额不足", st, false)
      else
        scheduleSwapArm st
    else
      match env.tokenBalance with
      | none => (.err "获取代币余额失败", st, false)
      | some tokenBalance =>
        if tokenBalance < amountIn * (totalTrades : ℚ) then
          (.err "代币余额不足", st, false)
        else
          scheduleSwapArm st

/-- A concrete 20-byte token address used in concrete evaluations. -/
def tokenA : Addr := List.replicate 20 1

/-- A concrete 20-byte wallet address used in concrete evaluations. -/
def walletA : Addr := List.replicate 20 2

theorem decodeInput1_concat (tok w : List Byte) (v : Nat)
    (htok : tok.length = 20) (hw : w.length = 20) (hv : v < 256 ^ 32) :
    decodeInput1Token (tok ++ toBytesBE 32 v ++ toBytesBE 32 0 ++ w) = tok ∧
    decodeInput1Amount (tok ++ toBytesBE 32 v ++ toBytesBE 32 0 ++ w) = v ∧
    decodeInput1Recipient (tok ++ toBytesBE 32 v ++ toBytesBE 32 0 ++ w) = w := by
  have lA : (toBytesBE 32 v).length = 32 := length_toBytesBE 32 v
  have lZ : (toBytesBE 32 0).length = 32 := length_toBytesBE 32 0
  refine ⟨?_, ?_, ?_⟩
  · unfold decodeInput1Token
    rw [List.append_assoc, List.append_assoc]
    exact take_append_of_length htok _
  · unfold decodeInput1Amount
    rw [List.append_assoc, List.append_assoc, drop_append_of_length htok,
      take_append_of_length lA, fromBytesBE_toBytesBE 32 v hv]
  · unfold decodeInput1Recipient
    rw [List.append_assoc, List.append_assoc]
    have hdrop :
        (tok ++ (toBytesBE 32 v ++ (toBytesBE 32 0 ++ w))).drop 84 = w := by
      have e : (84 : Nat) = 20 + 32 + 32 := by norm_num
      rw [e, ← List.drop_drop, ← List.drop_drop, drop_append_of_length htok,
        drop_append_of_length lA, drop_append_of_length lZ]
    rw [hdrop, ← hw, List.take_length]

/-- C1 (amended): for every 20-byte token address, positive amount in the
32-byte unsigned range, 20-byte recipient and direction buy or sell, the
path-swap encoder yields an `input2` of exactly 41 bytes — a 1-byte hop
count followed by two 20-byte leg addresses with the native leg 20 zero
bytes — and an `input1` of exactly 104 bytes: the token address (the
token-out only in the buy direction; the encoder reuses the token address
for sells as well), the 32-byte big-endian amount-in, a 32-byte big-endian
zero amount-out-minimum, and the recipient address. -/
theorem build_input_shapes (tokenAddress walletAddress : Addr) (amountIn : Nat)
    (tradeType : String) (blockTimestamp : Nat)
    (htok : tokenAddress.length = 20) (hwal : walletAddress.length = 20)
    (hpos : 0 < amountIn) (hlt : amountIn < 2 ^ 256)
    (hdir : tradeType = "buy" ∨ tradeType = "sell") :
    build_universal_router_execute_data tokenAddress amountIn tradeType
        walletAddress blockTimestamp =
      some ⟨[0x0b],
        [tokenAddress ++ toBytesBE 32 amountIn ++ toBytesBE 32 0 ++ walletAddress,
          if tradeType = "buy" then [2] ++ zeroAddress ++ tokenAddress
          else [2] ++ tokenAddress ++ zeroAddress],
        blockTimestamp + 1200⟩ ∧
    (tokenAddress ++ toBytesBE 32 amountIn ++ toBytesBE 32 0 ++
        walletAddress).length = 104 ∧
    (if tradeType = "buy" then [2] ++ zeroAddress ++ tokenAddress
        else [2] ++ tokenAddress ++ zeroAddress).length = 41 := by
  have lA : (toBytesBE 32 amountIn).length = 32 := length_toBytesBE 32 amountIn
  have lZ : (toBytesBE 32 0).length = 32 := length_toBytesBE 32 0
  have hlen1 : (tokenAddress ++ toBytesBE 32 amountIn ++ toBytesBE 32 0 ++
      walletAddress).length = 104 := by
    simp [htok, hwal, lA, lZ]
  rcases hdir with h | h <;> subst h
  · refine ⟨?_, hlen1, ?_⟩
    · unfold build_universal_router_execute_data
      rw [if_pos hlt]
      simp [zeroAddress]
    · simp [zeroAddress, htok]
  · refine ⟨?_, hlen1, ?_⟩
    · unfold build_universal_router_execute_data
      rw [if_pos hlt]
      simp [zeroAddress]
    · simp [zeroAddress, htok]

/-- C1 witness: the amended statement evaluated at a concrete buy. -/
theorem build_input_shapes_witness :
    build_universal_router_execute_data tokenA 5 "buy" walletA 0 =
      some ⟨[0x0b],
        [tokenA ++ toBytesBE 32 5 ++ toBytesBE 32 0 ++ walletA,
          if ("buy" : String) = "buy" then [2] ++ zeroAddress ++ tokenA
          else [2] ++ tokenA ++ zeroAddress],
        0 + 1200⟩ ∧
    (tokenA ++ toBytesBE 32 5 ++ toBytesBE 32 0 ++ walletA).length = 104 ∧
    (if ("buy" : String) = "buy" then [2] ++ zeroAddress ++ tokenA
        else [2] ++ tokenA ++ zeroAddress).length = 41 :=
  build_input_shapes tokenA walletA 5 "buy" 0 (by decide) (by decide)
    (by norm_num) (by norm_num) (Or.inl rfl)

/-- C1 counterexample: at a concrete sell the encoder's `input1` is 104
bytes, not the claimed 84, and its first 20 bytes are the token address,
not the sell path's token-out (the native leg, 20 zero bytes). -/
theorem build_input_shapes_counterexample :
    ((build_universal_router_execute_data tokenA 5 "sell" walletA 0).map
        (fun d => ((d.inputs.headD []).length, (d.inputs.headD []).take 20))) =
      some (104, tokenA) ∧
    (104 : Nat) ≠ 84 ∧ tokenA ≠ zeroAddress := by
  refine ⟨by decide, by norm_num, by decide⟩

/-- C8 (amended): decoding the encoded `input1` at offsets 0-19 (token),
20-51 (big-endian amount) and 84-103 (recipient; the spec's offset 52 lands
on the 32-byte zero amount-out-minimum field instead) recovers exactly the
token address, amount and recipient that were encoded. -/
theorem input1_roundtrip (tokenAddress walletAddress : Addr) (amountIn : Nat)
    (tradeType : String) (blockTimestamp : Nat) (d : ExecuteData)
    (htok : tokenAddress.length = 20) (hwal : walletAddress.length = 20)
    (hlt : amountIn < 2 ^ 256)
    (hbuild : build_universal_router_execute_data tokenAddress amountIn
        tradeType walletAddress blockTimestamp = some d) :
    decodeInput1Token (d.inputs.headD []) = tokenAddress ∧
    decodeInput1Amount (d.inputs.headD []) = amountIn ∧
    decodeInput1Recipient (d.inputs.headD []) = walletAddress := by
  have hv : amountIn < 256 ^ 32 := by
    have e : (256 : Nat) ^ 32 = 2 ^ 256 := by norm_num
    omega
  have hhead : d.inputs.headD [] =
      tokenAddress ++ toBytesBE 32 amountIn ++ toBytesBE 32 0 ++
        walletAddress := by
    unfold build_universal_router_execute_data at hbuild
    rw [if_pos hlt] at hbuild
    by_cases hb : tradeType = "buy"
    · rw [if_pos hb] at hbuild
      cases hbuild
      rfl
    · rw [if_neg hb] at hbuild
      cases hbuild
      rfl
  rw [hhead]
  exact decodeInput1_concat tokenAddress walletAddress amountIn htok hwal hv

/-- C8 witness: the amended round-trip at a concrete buy. -/
theorem input1_roundtrip_witness :
    decodeInput1Token ((ExecuteData.mk [0x0b]
        [tokenA ++ toBytesBE 32 5 ++ toBytesBE 32 0 ++ walletA,
          [2] ++ zeroAddress ++ tokenA] (0 + 1200)).inputs.headD []) = tokenA ∧
    decodeInput1Amount ((ExecuteData.mk [0x0b]
        [tokenA ++ toBytesBE 32 5 ++ toBytesBE 32 0 ++ walletA,
          [2] ++ zeroAddress ++ tokenA] (0 + 1200)).inputs.headD []) = 5 ∧
    decodeInput1Recipient ((ExecuteData.mk [0x0b]
        [tokenA ++ toBytesBE 32 5 ++ toBytesBE 32 0 ++ walletA,
          [2] ++ zeroAddress ++ tokenA] (0 + 1200)).inputs.headD []) = walletA :=
  input1_roundtrip tokenA walletA 5 "buy" 0
    (ExecuteData.mk [0x0b]
      [tokenA ++ toBytesBE 32 5 ++ toBytesBE 32 0 ++ walletA,
        [2] ++ zeroAddress ++ tokenA] (0 + 1200))
    (by decide) (by decide) (by norm_num) (by decide)

/-- C8 counterexample: the offsets the claim states do not recover the
recipient — at a concrete buy, bytes from offset 52 of `input1` are the 20
zero bytes of the amount-out-minimum field, not the recipient address. -/
theorem input1_roundtrip_counterexample :
    ((build_universal_router_execute_data tokenA 5 "buy" walletA 0).map
        (fun d => decodeInput1RecipientClaimed (d.inputs.headD []))) =
      some (List.replicate 20 0) ∧
    List.replicate 20 0 ≠ walletA := by
  refine ⟨by decide, by decide⟩

/-- A concrete monitor mirroring the spec scenario: threshold 0.001,
last observed balance 1. -/
def monitorB : MonitorInfo :=
  { tokenAddress := "T", walletAddress := "W", threshold := 1 / 1000
    autoTrade := false, active := true, startTime := 0, lastBalance := 1 }

/-- A concrete monitor at the threshold boundary: threshold 1, last 0. -/
def monitorC : MonitorInfo :=
  { tokenAddress := "T", walletAddress := "W", threshold := 1
    autoTrade := false, active := true, startTime := 0, lastBalance := 0 }

/-- C3 (amended): for every active monitor, a tick reading a balance whose
absolute delta from the last observed balance is at most the threshold (in
particular strictly less, as the claim has it) produces no change event and
leaves last_balance unchanged; a tick whose absolute delta is strictly
greater than the threshold — not merely equal, as the claim has it — fires
the change event and updates last_balance to the newly read balance. -/
theorem check_pool_status_threshold (m : MonitorInfo) (current : ℚ)
    (hactive : m.active = true) :
    (|current - m.lastBalance| ≤ m.threshold →
      check_pool_status m (some current) = (m, false)) ∧
    (|current - m.lastBalance| > m.threshold →
      check_pool_status m (some current) =
        ({ m with lastBalance := current }, true)) := by
  constructor
  · intro h
    simp only [check_pool_status]
    rw [if_neg (not_lt.mpr h)]
  · intro h
    simp only [check_pool_status]
    rw [if_pos h]

/-- C3 witness: the spec scenario's firing tick — last balance 1, threshold
0.001, read 1.002 — fires and updates. -/
theorem check_pool_status_threshold_witness :
    check_pool_status monitorB (some (1002 / 1000)) =
      ({ monitorB with lastBalance := 1002 / 1000 }, true) :=
  (check_pool_status_threshold monitorB (1002 / 1000) rfl).2 (by
    have he : |(1002 : ℚ) / 1000 - monitorB.lastBalance| = 1 / 500 := by
      rw [show ((1002 : ℚ) / 1000 - monitorB.lastBalance) = 1 / 500 by
        norm_num [monitorB]]
      exact abs_of_pos (by norm_num)
    rw [he]
    norm_num [monitorB])

/-- C3 counterexample: with threshold 1, last balance 0 and a read of
exactly 1, the absolute delta equals the threshold, so the claim requires
the change event to fire and last_balance to update; the code compares
strictly and does neither. -/
theorem check_pool_status_threshold_counterexample :
    |(1 : ℚ) - monitorC.lastBalance| ≥ monitorC.threshold ∧
    check_pool_status monitorC (some 1) = (monitorC, false) := by
  constructor
  · norm_num [monitorC]
  · simp only [check_pool_status]
    rw [if_neg (by norm_num [monitorC])]

theorem lookupA_filter_self {α : Type} (l : List (String × α)) (k : String) :
    lookupA (l.filter (fun p => p.1 != k)) k = none := by
  induction l with
  | nil => simp [lookupA]
  | cons p rest ih =>
    obtain ⟨k1, v1⟩ := p
    by_cases hk : k1 = k <;> simp [List.filter_cons, hk, lookupA, ih]

/-- C9: stopping an unknown monitor id returns the structured not-found
failure (the source's message is the Chinese for "monitor ID does not
exist") without raising — the embedding is a total function — and leaves
the monitor map unchanged; stopping a known id returns success, removes
exactly that monitor from the active set, and keeps every other entry. -/
theorem stop_pool_monitor_spec (poolMonitors : List (String × MonitorInfo))
    (monitorId : String) :
    (lookupA poolMonitors monitorId = none →
      stop_pool_monitor poolMonitors monitorId =
        (.err "监控ID不存在", poolMonitors)) ∧
    (∀ m, lookupA poolMonitors monitorId = some m →
      (stop_pool_monitor poolMonitors monitorId).1 = .ok monitorId ∧
      lookupA (stop_pool_monitor poolMonitors monitorId).2 monitorId = none ∧
      ∀ k v, k ≠ monitorId →
        ((k, v) ∈ (stop_pool_monitor poolMonitors monitorId).2 ↔
          (k, v) ∈ poolMonitors)) := by
  constructor
  · intro h
    simp [stop_pool_monitor, h]
  · intro m hm
    refine ⟨?_, ?_, ?_⟩
    · simp [stop_pool_monitor, hm]
    · simp [stop_pool_monitor, hm, lookupA_filter_self]
    · intro k v hk
      simp [stop_pool_monitor, hm, List.mem_filter, hk]

/-- C9 witness: stopping an unknown id on a one-monitor map returns the
structured failure and leaves the map unchanged. -/
theorem stop_pool_monitor_witness :
    stop_pool_monitor [("monitor_0", monitorB)] "monitor_9" =
      (.err "监控ID不存在", [("monitor_0", monitorB)]) :=
  (stop_pool_monitor_spec [("monitor_0", monitorB)] "monitor_9").1
    (by simp [lookupA])

/-- C7: resolving a token's router twice in sequence with no intervening
state change returns the identical cached address on the second call with
no probe performed and no cache change; the first call's result is stored
in the cache, and no pre-existing cache entry is ever invalidated. -/
theorem discover_universal_router_idempotent (checksum : String → String)
    (routerCache : List (String × String)) (defaultRouter tokenAddress : String)
    (r1 : String × List (String × String) × Nat)
    (h1 : discover_universal_router checksum routerCache defaultRouter
        tokenAddress = r1) :
    discover_universal_router checksum r1.2.1 defaultRouter tokenAddress =
      (r1.1, r1.2.1, 0) ∧
    lookupA r1.2.1 tokenAddress = some r1.1 ∧
    r1.2.2 = 0 ∧
    ∀ t r, lookupA routerCache t = some r → lookupA r1.2.1 t = some r := by
  cases hl : lookupA routerCache tokenAddress with
  | some cached =>
    have h1e : r1 = (cached, routerCache, 0) := by
      rw [← h1]
      simp [discover_universal_router, hl]
    subst h1e
    refine ⟨by simp [discover_universal_router, hl], hl, rfl, ?_⟩
    intro t r hr
    exact hr
  | none =>
    have h1e : r1 = (checksum defaultRouter,
        (tokenAddress, checksum defaultRouter) :: routerCache, 0) := by
      rw [← h1]
      simp [discover_universal_router, hl]
    subst h1e
    refine ⟨?_, ?_, rfl, ?_⟩
    · simp [discover_universal_router, lookupA]
    · simp [lookupA]
    · intro t r hr
      have ht : tokenAddress ≠ t := by
        intro he
        rw [he, hr] at hl
        cases hl
      simp only [lookupA, if_neg ht]
      exact hr

/-- C7 witness: a second resolve after a cache-filling first resolve
returns the same address, probes nothing and keeps the unrelated entry. -/
theorem discover_universal_router_witness :
    discover_universal_router (fun s => s) [("T", "R"), ("A", "X")] "R" "T" =
      ("R", [("T", "R"), ("A", "X")], 0) ∧
    lookupA [("T", "R"), ("A", "X")] "T" = some "R" ∧
    lookupA [("T", "R"), ("A", "X")] "A" = some "X" := by
  have h := discover_universal_router_idempotent (fun s => s) [("A", "X")]
    "R" "T" ("R", [("T", "R"), ("A", "X")], 0)
    (by simp [discover_universal_router, lookupA])
  exact ⟨h.1, h.2.1, h.2.2.2 "A" "X" (by simp [lookupA])⟩

/-- A concrete still-active scheduled task. -/
def taskA : TaskInfo :=
  { threadCount := 1, runCount := 1, totalTrades := 1, estimatedGas := 21000
    active := true, completed := false, completionTime := none }

/-- C10: execute_scheduled_task runs a task at most once — an unknown task
id, or a record whose active flag is already false, yields a structured
failure and leaves the task map unmodified; an active task transitions to
completed (active false, completed true, completion time recorded), and a
second invocation on the resulting map fails and changes nothing. -/
theorem execute_scheduled_task_at_most_once
    (scheduledTasks : List (String × TaskInfo)) (taskId : String)
    (now now2 : Nat) :
    (lookupA scheduledTasks taskId = none →
      execute_scheduled_task scheduledTasks taskId now =
        (.err "任务ID不存在", scheduledTasks)) ∧
    (∀ t, lookupA scheduledTasks taskId = some t → t.active = false →
      execute_scheduled_task scheduledTasks taskId now =
        (.err "任务已停止", scheduledTasks)) ∧
    (∀ t, lookupA scheduledTasks taskId = some t → t.active = true →
      execute_scheduled_task scheduledTasks taskId now =
        (.ok taskId, setA scheduledTasks taskId
          { t with
              active := false
              completed := true
              completionTime := some now }) ∧
      execute_scheduled_task
          (setA scheduledTasks taskId
            { t with
                active := false
                completed := true
                completionTime := some now }) taskId now2 =
        (.err "任务已停止",
          setA scheduledTasks taskId
            { t with
                active := false
                completed := true
                completionTime := some now })) := by
  refine ⟨fun h => by simp [execute_scheduled_task, h],
    fun t ht hact => by simp [execute_scheduled_task, ht, hact],
    fun t ht hact => ?_⟩
  have hset : lookupA (setA scheduledTasks taskId
      { t with
          active := false
          completed := true
          completionTime := some now }) taskId =
      some { t with
          active := false
          completed := true
          completionTime := some now } :=
    lookupA_setA _ _ _ (by simp [ht])
  exact ⟨by simp [execute_scheduled_task, ht, hact],
    by simp [execute_scheduled_task, hset]⟩

/-- C10 witness: a concrete active task executes once, and the second
invocation fails without modifying the record. -/
theorem execute_scheduled_task_witness :
    execute_scheduled_task [("task_0", taskA)] "task_0" 100 =
      (.ok "task_0", setA [("task_0", taskA)] "task_0"
        { taskA with
            active := false
            completed := true
            completionTime := some 100 }) ∧
    execute_scheduled_task (setA [("task_0", taskA)] "task_0"
        { taskA with
            active := false
            completed := true
            completionTime := some 100 }) "task_0" 200 =
      (.err "任务已停止", setA [("task_0", taskA)] "task_0"
        { taskA with
            active := false
            completed := true
            completionTime := some 100 }) :=
  (execute_scheduled_task_at_most_once [("task_0", taskA)] "task_0" 100 200).2.2
    taskA (by simp [lookupA]) rfl

/-- A chain environment with ample balances where every RPC step succeeds. -/
def envA : ChainEnv :=
  { monBalance := 10 ^ 18, tokenBalance := some 1000
    wethAddress := List.replicate 20 3, blockTimestamp := 0, tokenDecimals := 18
    estimateGas := some 21000, broadcastOk := true
    receipt := some ⟨1, 7, 21000, 100⟩, txHash := 99 }

/-- The environment of the spec's insufficiency scenario: native balance
0.005 MON (5·10^15 wei). -/
def envB : ChainEnv :=
  { envA with monBalance := 5 * 10 ^ 15 }

/-- An environment where only gas estimation fails. -/
def envD : ChainEnv :=
  { envA with monBalance := 2 * 10 ^ 18, estimateGas := none }

/-- The empty scheduler state. -/
def schedState0 : SchedulerState :=
  { scheduledTasks := [], taskCounter := 0 }

/-- C4: schedule_swap rejects — with a validation error, leaving the task
map and counter unchanged and arming no timer — every submission whose
delay (schedule time minus now) is zero or negative, whose thread count
lies outside [1,10], or whose run count lies outside [1,100]. -/
theorem schedule_swap_validation (env : ChainEnv) (tokenAddress : String)
    (amountIn : ℚ) (tradeType : String) (slippage : ℚ)
    (scheduleTime now : Int) (threadCount runCount : Int) (st : SchedulerState)
    (h : scheduleTime - now ≤ 0 ∨ threadCount < 1 ∨ threadCount > 10 ∨
      runCount < 1 ∨ runCount > 100) :
    (schedule_swap env tokenAddress amountIn tradeType slippage scheduleTime
        now threadCount runCount st).1.isErr = true ∧
    (schedule_swap env tokenAddress amountIn tradeType slippage scheduleTime
        now threadCount runCount st).2.1 = st ∧
    (schedule_swap env tokenAddress amountIn tradeType slippage scheduleTime
        now threadCount runCount st).2.2 = false := by
  unfold schedule_swap
  by_cases h1 : scheduleTime ≤ now
  · rw [if_pos h1]
    exact ⟨rfl, rfl, rfl⟩
  · rw [if_neg h1]
    have hbad : (threadCount < 1 ∨ threadCount > 10) ∨
        (runCount < 1 ∨ runCount > 100) := by
      rcases h with hd | hh | hh | hh | hh
      · omega
      · exact Or.inl (Or.inl hh)
      · exact Or.inl (Or.inr hh)
      · exact Or.inr (Or.inl hh)
      · exact Or.inr (Or.inr hh)
    rcases hbad with hth | hrn
    · rw [if_pos hth]
      exact ⟨rfl, rfl, rfl⟩
    · by_cases hth2 : threadCount < 1 ∨ threadCount > 10
      · rw [if_pos hth2]
        exact ⟨rfl, rfl, rfl⟩
      · rw [if_neg hth2, if_pos hrn]
        exact ⟨rfl, rfl, rfl⟩

/-- C4 witness: thread_count = 11 is rejected with no task and no timer. -/
theorem schedule_swap_validation_witness :
    (schedule_swap envA "T" 1 "buy" 5 10 0 11 1 schedState0).1.isErr = true ∧
    (schedule_swap envA "T" 1 "buy" 5 10 0 11 1 schedState0).2.1 =
      schedState0 ∧
    (schedule_swap envA "T" 1 "buy" 5 10 0 11 1 schedState0).2.2 = false :=
  schedule_swap_validation envA "T" 1 "buy" 5 10 0 11 1 schedState0
    (Or.inr (Or.inr (Or.inl (by norm_num))))

/-- C2 (amended): the submission-time balance pre-check is eager, but for a
buy it checks the wallet's native balance against the single amount_in only
— not against amount_in × thread_count × run_count — while for a sell it
checks the wallet's token balance against the full multiplied amount;
either shortfall fails the submission with a validation-style error, no
task created and no timer armed. -/
theorem schedule_swap_balance_precheck (env : ChainEnv)
    (tokenAddress : String) (amountIn : ℚ) (tradeType : String) (slippage : ℚ)
    (scheduleTime now : Int) (threadCount runCount : Int)
    (st : SchedulerState) (htime : ¬ scheduleTime ≤ now)
    (hth : ¬ (threadCount < 1 ∨ threadCount > 10))
    (hrn : ¬ (runCount < 1 ∨ runCount > 100)) :
    (tradeType = "buy" → (env.monBalance : ℚ) < toWei amountIn →
      schedule_swap env tokenAddress amountIn tradeType slippage scheduleTime
        now threadCount runCount st = (.err "MON 余额不足", st, false)) ∧
    (tradeType ≠ "buy" → ∀ bal, env.tokenBalance = some bal →
      bal < amountIn * ((threadCount * runCount : Int) : ℚ) →
      schedule_swap env tokenAddress amountIn tradeType slippage scheduleTime
        now threadCount runCount st = (.err "代币余额不足", st, false)) := by
  constructor
  · intro hbuy hbal
    unfold schedule_swap
    rw [if_neg htime, if_neg hth, if_neg hrn, if_pos hbuy, if_pos hbal]
  · intro hsell bal hbal hlt
    unfold schedule_swap
    rw [if_neg htime, if_neg hth, if_neg hrn, if_neg hsell, hbal]
    simp only [if_pos hlt]

/-- C2 witness (amended claim): a buy whose native balance is below even the
single amount is rejected at submission with no task and no timer. -/
theorem schedule_swap_balance_precheck_witness :
    schedule_swap envB "T" 1 "buy" 5 10 0 2 1 schedState0 =
      (.err "MON 余额不足", schedState0, false) :=
  (schedule_swap_balance_precheck envB "T" 1 "buy" 5 10 0 2 1 schedState0
    (by norm_num) (by norm_num) (by norm_num)).1 rfl
    (by norm_num [envB, envA, toWei])

/-- C2 counterexample: a buy submission whose native balance (1 MON)
covers the single amount_in (1 MON) but not the thread_count × run_count
multiplied amount (2 MON) passes the balance pre-check: the submission
fails only later, at the execute-call build against a router ABI with no
`execute` entry, and the resulting error is not the balance validation
error the claim requires for a balance below the multiplied amount. -/
theorem schedule_swap_balance_precheck_counterexample :
    schedule_swap envA "T" 1 "buy" 5 10 0 2 1 schedState0 =
      (.err "The function execute was not found in this contract abi",
        schedState0, false) ∧
    ¬ (envA.monBalance : ℚ) < toWei 1 ∧
    (envA.monBalance : ℚ) < toWei 1 * 2 ∧
    (.err "The function execute was not found in this contract abi"
        : SchedResult) ≠ .err "MON 余额不足" := by
  refine ⟨?_, by norm_num [envA, toWei], by norm_num [envA, toWei], by decide⟩
  unfold schedule_swap scheduleSwapArm
  rw [if_neg (by norm_num), if_neg (by norm_num), if_neg (by norm_num),
    if_pos rfl, if_neg (by norm_num [envA, toWei])]

/-- C5: a buy whose native-currency balance is strictly below the requested
amount fails with the insufficient-funds error after only the balance read:
no calldata is built and no chain write call (approval or broadcast)
occurs. -/
theorem execute_swap_buy_insufficient (env : ChainEnv)
    (tokenAddress walletAddress : Addr) (amountIn slippage : ℚ)
    (h : (env.monBalance : ℚ) < toWei amountIn) :
    (execute_swap env tokenAddress walletAddress amountIn "buy" slippage).1 =
      .err "MON 余额不足" ∧
    ((execute_swap env tokenAddress walletAddress amountIn "buy"
        slippage).2.contains Effect.calldataBuilt) = false ∧
    ((execute_swap env tokenAddress walletAddress amountIn "buy"
        slippage).2.all (fun e => !e.isWrite)) = true := by
  have hrun : execute_swap env tokenAddress walletAddress amountIn "buy"
      slippage = (.err "MON 余额不足", [Effect.balanceRead]) := by
    unfold execute_swap
    rw [if_pos rfl, if_pos h]
  rw [hrun]
  exact ⟨rfl, rfl, rfl⟩

/-- C5 witness: the spec scenario — balance 0.005 MON, buy of 0.01 — fails
with the insufficient-funds error, builds no calldata, performs no write. -/
theorem execute_swap_buy_insufficient_witness :
    (execute_swap envB tokenA walletA (1 / 100) "buy" 5).1 =
      .err "MON 余额不足" ∧
    ((execute_swap envB tokenA walletA (1 / 100) "buy" 5).2.contains
      Effect.calldataBuilt) = false ∧
    ((execute_swap envB tokenA walletA (1 / 100) "buy" 5).2.all
      (fun e => !e.isWrite)) = true :=
  execute_swap_buy_insufficient envB tokenA walletA (1 / 100) 5
    (by norm_num [envB, envA, toWei])

/-- Whether any numeric field of a swap result equals the given value. -/
def resultMentions (r : SwapResult) (v : Nat) : Bool :=
  match r with
  | .ok th bn gu egp => (th == v) || (bn == v) || (gu == v) || (egp == v)
  | .err _ => false

/-- C6 (amended): if gas estimation throws during execute_swap, the
lifecycle does not fail — the transaction is signed with the configured
fallback gas limit 500000 and broadcast, and on a status-1 receipt the run
returns the success payload; that payload reports the receipt's gas_used
(and related receipt fields), not the fallback limit itself. -/
theorem execute_swap_gas_fallback (env : ChainEnv)
    (tokenAddress walletAddress : Addr) (amountIn slippage : ℚ)
    (hbal : ¬ (env.monBalance : ℚ) < toWei amountIn)
    (hweth : env.wethAddress ≠ zeroAddress)
    (hest : env.estimateGas = none)
    (hbc : env.broadcastOk = true)
    (receipt : Receipt) (hrec : env.receipt = some receipt)
    (hst : receipt.status = 1) :
    (execute_swap env tokenAddress walletAddress amountIn "buy" slippage).1 =
      .ok env.txHash receipt.blockNumber receipt.gasUsed
        receipt.effectiveGasPrice ∧
    ((execute_swap env tokenAddress walletAddress amountIn "buy"
        slippage).2.contains (Effect.sign 500000)) = true ∧
    ((execute_swap env tokenAddress walletAddress amountIn "buy"
        slippage).2.contains Effect.sendRaw) = true := by
  have hrun : execute_swap env tokenAddress walletAddress amountIn "buy"
      slippage =
      (.ok env.txHash receipt.blockNumber receipt.gasUsed
        receipt.effectiveGasPrice,
        [Effect.balanceRead, Effect.wethRead, Effect.routerVerify,
          Effect.blockRead, Effect.calldataBuilt, Effect.estimateGasCall,
          Effect.sign 500000, Effect.sendRaw, Effect.receiptWait]) := by
    unfold execute_swap executeSwapBuild executeSwapFinish
    rw [if_pos rfl, if_neg hbal, if_neg hweth, if_pos rfl, hest, if_pos hbc,
      hrec]
    simp [hst]
  rw [hrun]
  exact ⟨rfl, rfl, rfl⟩

/-- C6 witness: with estimation failing in a concrete environment, the run
broadcasts with the fallback limit and succeeds. -/
theorem execute_swap_gas_fallback_witness :
    (execute_swap envD tokenA walletA 1 "buy" 5).1 = .ok 99 7 21000 100 ∧
    ((execute_swap envD tokenA walletA 1 "buy" 5).2.contains
      (Effect.sign 500000)) = true ∧
    ((execute_swap envD tokenA walletA 1 "buy" 5).2.contains
      Effect.sendRaw) = true :=
  execute_swap_gas_fallback envD tokenA walletA 1 5
    (by norm_num [envD, envA, toWei]) (by decide) rfl rfl
    ⟨1, 7, 21000, 100⟩ rfl rfl

/-- C6 counterexample: in that same run — gas estimation throwing, the
transaction signed with the fallback limit 500000 and broadcast — the final
result is the receipt's values only: no field of the returned success
payload equals the fallback value, contrary to the claim that the final
result includes it. -/
theorem execute_swap_gas_fallback_counterexample :
    (execute_swap envD tokenA walletA 1 "buy" 5).1 = .ok 99 7 21000 100 ∧
    ((execute_swap envD tokenA walletA 1 "buy" 5).2.contains
      (Effect.sign 500000)) = true ∧
    resultMentions (execute_swap envD tokenA walletA 1 "buy" 5).1 500000 =
      false := by
  have hrun : execute_swap envD tokenA walletA 1 "buy" 5 =
      (.ok 99 7 21000 100,
        [Effect.balanceRead, Effect.wethRead, Effect.routerVerify,
          Effect.blockRead, Effect.calldataBuilt, Effect.estimateGasCall,
          Effect.sign 500000, Effect.sendRaw, Effect.receiptWait]) := by
    unfold execute_swap executeSwapBuild executeSwapFinish
    rw [if_pos rfl, if_neg (by norm_num [envD, envA, toWei]),
      if_neg (by decide), if_pos rfl]
    rfl
  rw [hrun]
  exact ⟨rfl, by decide, by decide⟩

end MonadCards
